import Mathlib

/-!
Verification of the cantilevered-beam evaluation module
(`cantilevered_beam_problem.py`).

The Python module defines a class `CantileveredBeamProblem` holding constants
and variable bounds, an `evaluate_solution` method that scores a candidate
`[H, h1, b1, b2]` (returning a volume or a penalty `1e9`) and a
`random_solution` sampler.

Modelling choices for the shallow embedding:

* Python numbers are modelled by exact rationals `ℚ` (the spec speaks of
  real-valued quantities; every constant in the module is an exact decimal).
* A candidate element is a `PyVal`: a finite number, a NaN, `±inf`, or a
  non-numeric object (`other`).  The candidate itself is a `PyObj`: a
  sequence (list/tuple) of `PyVal`s or a non-sequence object.
* An uncaught Python exception is modelled by `Except PyErr`; a normal
  return is `Except.ok`.
  - `int(round(x))` raises `TypeError` on non-numbers, `ValueError` on NaN
    and `OverflowError` on infinities; on a finite float it rounds half to
    even (Python 3 `round`), modelled by `roundHalfEven`.
  - a chained comparison `lo <= x <= hi` raises `TypeError` on a
    non-numeric `x`, is `False` when `x` is NaN, and short-circuits.
  - inside the `try` block every operand is a finite float in `[0.1, 12]`,
    so no arithmetic exception can actually occur there; the model computes
    the expressions exactly.
* The object state (`self.P`, `self.E`, `self.L`, `self.possibleValues`,
  `self.bounds`) is threaded explicitly: `evaluateState` takes the state
  and returns the result together with the state after the call, so that
  purity (claim on side effects) is a theorem about the definition rather
  than an ambient assumption.
-/

/-- A Python value appearing as an element of a candidate sequence:
a finite number (int/float/bool, all exact here), a float NaN,
`float('inf')`, `float('-inf')`, or any non-numeric object. -/
inductive PyVal where
  | num (q : ℚ)
  | nan
  | inf
  | ninf
  | other
  deriving DecidableEq, Repr

/-- A Python object passed to `evaluate_solution`: a list/tuple of values,
or any non-sequence object. -/
inductive PyObj where
  | seq (elems : List PyVal)
  | other
  deriving DecidableEq, Repr

/-- The Python exceptions the module can let escape. -/
inductive PyErr where
  | typeError
  | valueError
  | overflowError
  deriving DecidableEq, Repr

/-- Python 3 `round` on a finite value: round half to even. -/
def roundHalfEven (q : ℚ) : ℤ :=
  let f := ⌊q⌋
  let r := q - (f : ℚ)
  if r < 1/2 then f
  else if 1/2 < r then f + 1
  else if 2 ∣ f then f else f + 1

/-- `int(round(x))` on a candidate element (source line 76). -/
def pyIntRound : PyVal → Except PyErr ℤ
  | .num q => .ok (roundHalfEven q)
  | .nan => .error .valueError
  | .inf => .error .overflowError
  | .ninf => .error .overflowError
  | .other => .error .typeError

/-- The Python chained comparison `lo <= x <= hi` (source lines 84-88):
`TypeError` on a non-numeric `x`, all comparisons with NaN are false,
and the second comparison is short-circuited. -/
def pyChainLe (lo : ℚ) (x : PyVal) (hi : ℚ) : Except PyErr Bool :=
  match x with
  | .num q => .ok (decide (lo ≤ q) && decide (q ≤ hi))
  | .nan => .ok false
  | .inf => .ok (decide False)
  | .ninf => .ok false
  | .other => .error .typeError

/-- Numeric value of a `PyVal` (only consulted after the bounds checks,
which guarantee the value is a finite number). -/
def pyToQ : PyVal → ℚ
  | .num q => q
  | _ => 0

/-- The object state set up by `__init__` (source lines 42-54). -/
structure CantileveredBeamProblem where
  P : ℚ
  E : ℚ
  L : ℚ
  possibleValues : List ℚ
  bounds_H : ℚ × ℚ
  bounds_h1 : ℤ × ℤ
  bounds_b1 : ℚ × ℚ
  bounds_b2 : ℚ × ℚ
  deriving DecidableEq, Repr

/-- `CantileveredBeamProblem.__init__`: the constants and bounds. -/
def CantileveredBeamProblem.init : CantileveredBeamProblem :=
  let pv : List ℚ := [1/10, 26/100, 35/100, 5/10, 65/100, 75/100, 9/10, 1]
  { P := 1000
    E := 10 * 10^6
    L := 36
    possibleValues := pv
    bounds_H := (3, 7)
    bounds_h1 := (0, (pv.length : ℤ) - 1)
    bounds_b1 := (2, 12)
    bounds_b2 := (1/10, 2) }

/-- The penalty sentinel `PENALTY = 1e9` (source line 70). -/
def PENALTY : ℚ := 10^9

/-- Moment of inertia (source lines 93-95):
`I = (1/12)*b2*(H - 2*fh1)**3 + 2*((1/12)*b1*fh1**3 + (b1*fh1*(H - fh1)**2)/4)`. -/
def momentOfInertia (b1 b2 H fh1 : ℚ) : ℚ :=
  (1/12) * b2 * (H - 2 * fh1)^3 + 2 * ((1/12) * b1 * fh1^3 + (b1 * fh1 * (H - fh1)^2) / 4)

/-- Bending stress `g1 = P * L * H / (2 * I)` (source line 102). -/
def bendingStress (P L H I : ℚ) : ℚ := P * L * H / (2 * I)

/-- Tip deflection `g2 = P * L**3 / (3 * E * I)` (source line 103). -/
def tipDeflection (P L E I : ℚ) : ℚ := P * L^3 / (3 * E * I)

/-- Beam volume `(2*fh1*b1 + (H - 2*fh1)*b2) * L` (source line 110). -/
def beamVolume (fh1 b1 H b2 L : ℚ) : ℚ := (2 * fh1 * b1 + (H - 2 * fh1) * b2) * L

/-- Source lines 92-111: the part of `evaluate_solution` after the bounds
checks, on the (by then guaranteed finite) numeric values.  Inside the
`try` block every operand lies in `[0.1, 12]`, so the float arithmetic
cannot raise and the `except` branch is dead; the model computes exactly. -/
def physicsEval (st : CantileveredBeamProblem) (H fh1 b1 b2 : ℚ) : ℚ :=
  let I := momentOfInertia b1 b2 H fh1
  if I ≤ 0 then PENALTY
  else
    let g1 := bendingStress st.P st.L H I
    let g2 := tipDeflection st.P st.L st.E I
    if g1 > 5000 ∨ g2 > 1/10 then PENALTY
    else beamVolume fh1 b1 H b2 st.L

/-- `evaluate_solution` (source lines 56-111) with explicit state passing:
the returned state is the object state after the call.  The method only
reads `self`, which the definition makes syntactically evident. -/
def evaluateState (st : CantileveredBeamProblem) (solution : PyObj) :
    Except PyErr ℚ × CantileveredBeamProblem :=
  match solution with
  | .other => (.ok PENALTY, st)
  | .seq elems =>
    if elems.length ≠ 4 then (.ok PENALTY, st)
    else
      match pyIntRound (elems.getD 1 .other) with
      | .error e => (.error e, st)
      | .ok h1 =>
        if h1 < st.bounds_h1.1 ∨ h1 > st.bounds_h1.2 then (.ok PENALTY, st)
        else
          let fh1 := st.possibleValues.getD h1.toNat 0
          match pyChainLe st.bounds_H.1 (elems.getD 0 .other) st.bounds_H.2 with
          | .error e => (.error e, st)
          | .ok okH =>
            if !okH then (.ok PENALTY, st)
            else
              match pyChainLe st.bounds_b1.1 (elems.getD 2 .other) st.bounds_b1.2 with
              | .error e => (.error e, st)
              | .ok okB1 =>
                if !okB1 then (.ok PENALTY, st)
                else
                  match pyChainLe st.bounds_b2.1 (elems.getD 3 .other) st.bounds_b2.2 with
                  | .error e => (.error e, st)
                  | .ok okB2 =>
                    if !okB2 then (.ok PENALTY, st)
                    else
                      (.ok (physicsEval st (pyToQ (elems.getD 0 .other)) fh1
                              (pyToQ (elems.getD 2 .other)) (pyToQ (elems.getD 3 .other))), st)

/-- `evaluate_solution` on the canonical (`__init__`-produced) state,
returning only the value. -/
def evaluate_solution (solution : PyObj) : Except PyErr ℚ :=
  (evaluateState .init solution).1

/-- `random_solution` (source lines 113-126), parameterised by the four
random draws: `random.uniform` and `random.randint` are modelled by taking
the drawn values as arguments; the hypotheses of the theorems about it are
exactly the ranges those draws are guaranteed to lie in. -/
def random_solution (H : ℚ) (h1 : ℤ) (b1 b2 : ℚ) : PyObj :=
  .seq [.num H, .num (h1 : ℚ), .num b1, .num b2]

/-! ### Helper lemmas -/

/-- `round` is the identity on integers (in particular on the integer `h1`
produced by `random.randint`). -/
lemma roundHalfEven_intCast (n : ℤ) : roundHalfEven (n : ℚ) = n := by
  simp [roundHalfEven]

/-- Every entry of the flange-height table lies in `[1/10, 1]`. -/
lemma possibleValues_mem_bounds (n : ℕ) (hn : n ≤ 7) :
    1/10 ≤ CantileveredBeamProblem.init.possibleValues.getD n 0 ∧
      CantileveredBeamProblem.init.possibleValues.getD n 0 ≤ 1 := by
  interval_cases n <;> norm_num [CantileveredBeamProblem.init]

/-- A chained bounds comparison that evaluates to `True` pins the value down
to a finite number inside the interval. -/
lemma pyChainLe_eq_ok_true {lo hi : ℚ} {x : PyVal}
    (h : pyChainLe lo x hi = .ok true) : ∃ q, x = .num q ∧ lo ≤ q ∧ q ≤ hi := by
  cases x <;> simp_all [pyChainLe]

/-- A chained bounds comparison never raises on a numeric operand
(finite, NaN or infinite). -/
lemma pyChainLe_isOk (lo hi : ℚ) {x : PyVal} (h : x ≠ .other) :
    ∃ b, pyChainLe lo x hi = .ok b := by
  cases x <;> simp_all [pyChainLe]

/-- Evaluation of an all-numeric candidate `[H, h1, b1, b2]`, written as the
source's cascade of checks over the exact rational values. -/
lemma evaluate_num (H h1 b1 b2 : ℚ) :
    evaluate_solution (.seq [.num H, .num h1, .num b1, .num b2]) =
      if roundHalfEven h1 < 0 ∨ 7 < roundHalfEven h1 then .ok PENALTY
      else if H < 3 ∨ 7 < H then .ok PENALTY
      else if b1 < 2 ∨ 12 < b1 then .ok PENALTY
      else if b2 < 1/10 ∨ 2 < b2 then .ok PENALTY
      else .ok (physicsEval .init H
        (CantileveredBeamProblem.init.possibleValues.getD (roundHalfEven h1).toNat 0) b1 b2) := by
  simp only [evaluate_solution, evaluateState, pyIntRound, pyChainLe, pyToQ,
    List.getD, List.length_cons, List.length_nil]
  norm_num [CantileveredBeamProblem.init]
  split_ifs <;> simp_all

/-- `physicsEval` on the `__init__` state, with the constants spelled out
(`P = 1000`, `L = 36`, `E = 1e7`). -/
lemma physicsEval_init (H fh b1 b2 : ℚ) :
    physicsEval .init H fh b1 b2 =
      if momentOfInertia b1 b2 H fh ≤ 0 then PENALTY
      else if 5000 < bendingStress 1000 36 H (momentOfInertia b1 b2 H fh) ∨
          1/10 < tipDeflection 1000 36 (10^7) (momentOfInertia b1 b2 H fh) then PENALTY
      else beamVolume fh b1 H b2 36 := by
  norm_num [physicsEval, CantileveredBeamProblem.init]

/-- With the flange height in `[1/10, 1]` and the continuous variables at or
above their lower bounds, the moment of inertia is strictly positive. -/
lemma momentOfInertia_pos {b1 b2 H fh : ℚ} (hb1 : 2 ≤ b1) (hb2 : 1/10 ≤ b2)
    (hH : 3 ≤ H) (hfl : 1/10 ≤ fh) (hfu : fh ≤ 1) :
    0 < momentOfInertia b1 b2 H fh := by
  unfold momentOfInertia
  have hb1' : (0:ℚ) ≤ b1 := by linarith
  have hfh' : (0:ℚ) ≤ fh := by linarith
  have hb2' : (0:ℚ) ≤ b2 := by linarith
  have hc : (1:ℚ) ≤ H - 2 * fh := by linarith
  have hc3 : (1:ℚ) ≤ (H - 2 * fh)^3 := by nlinarith [sq_nonneg (H - 2 * fh)]
  have ht1 : (1:ℚ)/10 * 1 ≤ b2 * (H - 2 * fh)^3 :=
    mul_le_mul hb2 hc3 (by norm_num) hb2'
  nlinarith [mul_nonneg (mul_nonneg hb1' hfh') (sq_nonneg (H - fh)),
    mul_nonneg hb1' (pow_nonneg hfh' 3)]

/-- For an in-bounds design the volume is strictly positive and at most
`6768/5 = 1353.6`. -/
lemma beamVolume_bounds {fh b1 H b2 : ℚ} (hfl : 1/10 ≤ fh) (hfu : fh ≤ 1)
    (hH1 : 3 ≤ H) (hH2 : H ≤ 7) (hb11 : 2 ≤ b1) (hb12 : b1 ≤ 12)
    (hb21 : 1/10 ≤ b2) (hb22 : b2 ≤ 2) :
    0 < beamVolume fh b1 H b2 36 ∧ beamVolume fh b1 H b2 36 ≤ 6768/5 := by
  unfold beamVolume
  have hfh' : (0:ℚ) ≤ fh := by linarith
  have hb1' : (0:ℚ) ≤ b1 := by linarith
  have hb2' : (0:ℚ) ≤ b2 := by linarith
  have hweb : (1:ℚ) ≤ H - 2 * fh := by linarith
  have hweb' : (0:ℚ) ≤ H - 2 * fh := by linarith
  constructor
  · nlinarith [mul_le_mul hfl hb11 (by norm_num : (0:ℚ) ≤ 2) hfh',
      mul_le_mul hweb hb21 (by norm_num : (0:ℚ) ≤ 1/10) hweb']
  · have h1 : fh * b1 ≤ 1 * 12 := mul_le_mul hfu hb12 hb1' (by norm_num)
    have h2 : (H - 2 * fh) * b2 ≤ (34/5) * 2 :=
      mul_le_mul (by linarith) hb22 hb2' (by norm_num)
    nlinarith

/-- A list of length 4 is a 4-element list literal. -/
lemma list_eq_four {α : Type} {l : List α} (h : l.length = 4) :
    ∃ a b c d : α, l = [a, b, c, d] := by
  rcases l with _ | ⟨a, _ | ⟨b, _ | ⟨c, _ | ⟨d, _ | ⟨e, t⟩⟩⟩⟩⟩ <;> simp_all

/-- `evaluate_solution` writes no field of `self`: the state after the call
is the state before it, on every path. -/
lemma evaluateState_snd (st : CantileveredBeamProblem) (sol : PyObj) :
    (evaluateState st sol).2 = st := by
  cases sol with
  | other => rfl
  | seq elems =>
    rw [evaluateState]
    repeat' split
    all_goals rfl

/-! ### Claims -/

/-- C2, counterexample: a length-4 list with a non-numeric second element
makes `evaluate_solution` raise a `TypeError` at `int(round(solution[1]))`
instead of returning the penalty `1e9`. -/
theorem claim_C2_cex :
    evaluate_solution (.seq [.num 3, .other, .num 2, .num 1]) = .error .typeError ∧
      evaluate_solution (.seq [.num 3, .other, .num 2, .num 1]) ≠ .ok PENALTY := by
  have h : evaluate_solution (.seq [.num 3, .other, .num 2, .num 1]) = .error .typeError := rfl
  exact ⟨h, by rw [h]; simp⟩

/-- C2 (amended): every input that is not a list/tuple, or is a list/tuple
whose length is not 4, makes `evaluate_solution` return exactly `1e9`;
a length-4 sequence with a non-numeric element can instead raise an
uncaught `TypeError`. -/
theorem claim_C2 (sol : PyObj)
    (h : sol = .other ∨ ∃ l, sol = .seq l ∧ l.length ≠ 4) :
    evaluate_solution sol = .ok PENALTY := by
  rcases h with h | ⟨l, rfl, hl⟩
  · subst h; rfl
  · simp [evaluate_solution, evaluateState, hl]

/-- Witness for C2: a length-1 list gets the penalty. -/
theorem claim_C2_witness : evaluate_solution (.seq [.num 1]) = .ok PENALTY :=
  claim_C2 _ (Or.inr ⟨[.num 1], rfl, by simp⟩)

/-- C5: a numeric candidate whose rounded `h1` falls outside `[0,7]`, or
whose `H`, `b1` or `b2` falls outside its closed interval, gets the penalty
`1e9`; and a candidate inside all the closed intervals (endpoints included)
passes every bounds check, its value being decided by the physics part
alone. -/
theorem claim_C5 (H h1 b1 b2 : ℚ) :
    ((roundHalfEven h1 < 0 ∨ 7 < roundHalfEven h1 ∨ H < 3 ∨ 7 < H ∨ b1 < 2 ∨ 12 < b1 ∨
        b2 < 1/10 ∨ 2 < b2) →
      evaluate_solution (.seq [.num H, .num h1, .num b1, .num b2]) = .ok PENALTY) ∧
    ((0 ≤ roundHalfEven h1 ∧ roundHalfEven h1 ≤ 7 ∧ 3 ≤ H ∧ H ≤ 7 ∧ 2 ≤ b1 ∧ b1 ≤ 12 ∧
        1/10 ≤ b2 ∧ b2 ≤ 2) →
      evaluate_solution (.seq [.num H, .num h1, .num b1, .num b2]) =
        .ok (physicsEval .init H
          (CantileveredBeamProblem.init.possibleValues.getD (roundHalfEven h1).toNat 0)
          b1 b2)) := by
  rw [evaluate_num]
  constructor
  · intro h
    split_ifs with c1 c2 c3 c4
    · rfl
    · rfl
    · rfl
    · rfl
    · exfalso
      push_neg at c1 c2 c3 c4
      rcases h with h | h | h | h | h | h | h | h <;> first | omega | linarith [c2.1, c2.2, c3.1, c3.2, c4.1, c4.2]
  · rintro ⟨hr0, hr7, hH1, hH2, hb11, hb12, hb21, hb22⟩
    split_ifs with c1 c2 c3 c4
    · exfalso; rcases c1 with c | c <;> omega
    · exfalso; rcases c2 with c | c <;> linarith
    · exfalso; rcases c3 with c | c <;> linarith
    · exfalso; rcases c4 with c | c <;> linarith
    · rfl

/-- Witness for C5: `H = 8` is out of bounds and gets the penalty,
and the all-endpoints candidate `[3, 0, 2, 1/10]` reaches the physics part. -/
theorem claim_C5_witness :
    evaluate_solution (.seq [.num 8, .num 0, .num 2, .num 1]) = .ok PENALTY ∧
      evaluate_solution (.seq [.num 3, .num 0, .num 2, .num (1/10)]) =
        .ok (physicsEval .init 3
          (CantileveredBeamProblem.init.possibleValues.getD (roundHalfEven 0).toNat 0)
          2 (1/10)) :=
  ⟨(claim_C5 8 0 2 1).1 (by norm_num [roundHalfEven]),
   (claim_C5 3 0 2 (1/10)).2 (by norm_num [roundHalfEven])⟩

/-- C7: `evaluate_solution` is deterministic and side-effect free: the
object state after a call is the state before it, and a second call on the
post-call state returns the identical value. -/
theorem claim_C7 (st : CantileveredBeamProblem) (sol : PyObj) :
    (evaluateState st sol).2 = st ∧
      (evaluateState (evaluateState st sol).2 sol).1 = (evaluateState st sol).1 := by
  refine ⟨evaluateState_snd st sol, ?_⟩
  rw [evaluateState_snd st sol]

/-- C8: on the candidate `[5.0, 7, 5.0, 1.0]` the flange height is `1.0`,
both physics constraints hold, and `evaluate_solution` returns the volume
`468.0`. -/
theorem claim_C8 :
    CantileveredBeamProblem.init.possibleValues.getD 7 0 = 1 ∧
      bendingStress 1000 36 5 (momentOfInertia 5 1 5 1) ≤ 5000 ∧
      tipDeflection 1000 36 (10^7) (momentOfInertia 5 1 5 1) ≤ 1/10 ∧
      evaluate_solution (.seq [.num 5, .num 7, .num 5, .num 1]) = .ok 468 := by
  refine ⟨by norm_num [CantileveredBeamProblem.init],
    by norm_num [bendingStress, momentOfInertia],
    by norm_num [tipDeflection, momentOfInertia], ?_⟩
  rw [evaluate_num]
  norm_num [roundHalfEven, physicsEval, momentOfInertia, bendingStress,
    tipDeflection, beamVolume, PENALTY, CantileveredBeamProblem.init, List.getD, Int.toNat]

/-- C3: a candidate passing every validation step and both physics
constraints evaluates to the closed-form volume
`(2*flangeHeight*b1 + (H - 2*flangeHeight)*b2) * 36`. -/
theorem claim_C3 (H h1 b1 b2 fh : ℚ)
    (hfh : fh = CantileveredBeamProblem.init.possibleValues.getD (roundHalfEven h1).toNat 0)
    (hr0 : 0 ≤ roundHalfEven h1) (hr7 : roundHalfEven h1 ≤ 7)
    (hH1 : 3 ≤ H) (hH2 : H ≤ 7) (hb11 : 2 ≤ b1) (hb12 : b1 ≤ 12)
    (hb21 : 1/10 ≤ b2) (hb22 : b2 ≤ 2)
    (hI : 0 < momentOfInertia b1 b2 H fh)
    (hg1 : bendingStress 1000 36 H (momentOfInertia b1 b2 H fh) ≤ 5000)
    (hg2 : tipDeflection 1000 36 (10^7) (momentOfInertia b1 b2 H fh) ≤ 1/10) :
    evaluate_solution (.seq [.num H, .num h1, .num b1, .num b2]) =
      .ok (beamVolume fh b1 H b2 36) := by
  subst hfh
  rw [evaluate_num]
  split_ifs with c1 c2 c3 c4
  · exfalso; rcases c1 with c | c <;> omega
  · exfalso; rcases c2 with c | c <;> linarith
  · exfalso; rcases c3 with c | c <;> linarith
  · exfalso; rcases c4 with c | c <;> linarith
  · rw [physicsEval_init, if_neg (not_le.mpr hI), if_neg]
    push_neg
    exact ⟨hg1, hg2⟩

/-- Witness for C3: the feasible candidate `[5, 7, 5, 1]`. -/
theorem claim_C3_witness :
    evaluate_solution (.seq [.num 5, .num 7, .num 5, .num 1]) =
      .ok (beamVolume (CantileveredBeamProblem.init.possibleValues.getD
        (roundHalfEven 7).toNat 0) 5 5 1 36) :=
  claim_C3 5 7 5 1 _ rfl
    (by norm_num [roundHalfEven]) (by norm_num [roundHalfEven])
    (by norm_num) (by norm_num) (by norm_num) (by norm_num) (by norm_num) (by norm_num)
    (by norm_num [momentOfInertia, roundHalfEven, CantileveredBeamProblem.init,
      List.getD, Int.toNat])
    (by norm_num [bendingStress, momentOfInertia, roundHalfEven,
      CantileveredBeamProblem.init, List.getD, Int.toNat])
    (by norm_num [tipDeflection, momentOfInertia, roundHalfEven,
      CantileveredBeamProblem.init, List.getD, Int.toNat])

/-- C4: for a candidate past the `h1` and continuous-bounds checks with a
positive moment of inertia, the result is the penalty `1e9` exactly when
`g1 > 5000` or `g2 > 1/10`; at the boundary values the candidate is
feasible. -/
theorem claim_C4 (H h1 b1 b2 fh : ℚ)
    (hfh : fh = CantileveredBeamProblem.init.possibleValues.getD (roundHalfEven h1).toNat 0)
    (hr0 : 0 ≤ roundHalfEven h1) (hr7 : roundHalfEven h1 ≤ 7)
    (hH1 : 3 ≤ H) (hH2 : H ≤ 7) (hb11 : 2 ≤ b1) (hb12 : b1 ≤ 12)
    (hb21 : 1/10 ≤ b2) (hb22 : b2 ≤ 2)
    (hI : 0 < momentOfInertia b1 b2 H fh) :
    evaluate_solution (.seq [.num H, .num h1, .num b1, .num b2]) = .ok PENALTY ↔
      (5000 < bendingStress 1000 36 H (momentOfInertia b1 b2 H fh) ∨
        1/10 < tipDeflection 1000 36 (10^7) (momentOfInertia b1 b2 H fh)) := by
  have hfb := possibleValues_mem_bounds (roundHalfEven h1).toNat (by omega)
  rw [← hfh] at hfb
  rw [evaluate_num]
  split_ifs with c1 c2 c3 c4
  · exfalso; rcases c1 with c | c <;> omega
  · exfalso; rcases c2 with c | c <;> linarith
  · exfalso; rcases c3 with c | c <;> linarith
  · exfalso; rcases c4 with c | c <;> linarith
  · rw [← hfh, physicsEval_init, if_neg (not_le.mpr hI)]
    split_ifs with hg
    · exact iff_of_true rfl hg
    · simp only [Except.ok.injEq]
      constructor
      · intro hv
        exfalso
        have hb := beamVolume_bounds hfb.1 hfb.2 hH1 hH2 hb11 hb12 hb21 hb22
        rw [hv] at hb
        norm_num [PENALTY] at hb
      · intro hc
        exact absurd hc hg

/-- Witness for C4: the candidate `[3, 0, 2, 1/10]` has a tiny moment of
inertia, violates the stress constraint, and gets the penalty. -/
theorem claim_C4_witness :
    evaluate_solution (.seq [.num 3, .num 0, .num 2, .num (1/10)]) = .ok PENALTY :=
  (claim_C4 3 0 2 (1/10) _ rfl
    (by norm_num [roundHalfEven]) (by norm_num [roundHalfEven])
    (by norm_num) (by norm_num) (by norm_num) (by norm_num) (by norm_num) (by norm_num)
    (by norm_num [momentOfInertia, roundHalfEven, CantileveredBeamProblem.init,
      List.getD, Int.toNat])).mpr
    (by norm_num [bendingStress, momentOfInertia, roundHalfEven,
      CantileveredBeamProblem.init, List.getD, Int.toNat])

/-- C9: for every candidate past the `h1` and continuous-bounds checks the
moment of inertia is strictly positive, so the `I <= 0` penalty branch of
the physics part never fires. -/
theorem claim_C9 (H h1 b1 b2 fh : ℚ)
    (hfh : fh = CantileveredBeamProblem.init.possibleValues.getD (roundHalfEven h1).toNat 0)
    (hr0 : 0 ≤ roundHalfEven h1) (hr7 : roundHalfEven h1 ≤ 7)
    (hH1 : 3 ≤ H) (hH2 : H ≤ 7) (hb11 : 2 ≤ b1) (hb12 : b1 ≤ 12)
    (hb21 : 1/10 ≤ b2) (hb22 : b2 ≤ 2) :
    0 < momentOfInertia b1 b2 H fh ∧
      physicsEval .init H fh b1 b2 =
        if 5000 < bendingStress 1000 36 H (momentOfInertia b1 b2 H fh) ∨
            1/10 < tipDeflection 1000 36 (10^7) (momentOfInertia b1 b2 H fh) then PENALTY
        else beamVolume fh b1 H b2 36 := by
  have hfb := possibleValues_mem_bounds (roundHalfEven h1).toNat (by omega)
  rw [← hfh] at hfb
  have hI := momentOfInertia_pos hb11 hb21 hH1 hfb.1 hfb.2
  exact ⟨hI, by rw [physicsEval_init, if_neg (not_le.mpr hI)]⟩

/-- Witness for C9: the near-degenerate all-lower-bounds candidate
`[3, 0, 2, 1/10]` still has a positive moment of inertia. -/
theorem claim_C9_witness :
    0 < momentOfInertia 2 (1/10) 3
        (CantileveredBeamProblem.init.possibleValues.getD (roundHalfEven 0).toNat 0) :=
  (claim_C9 3 0 2 (1/10) _ rfl
    (by norm_num [roundHalfEven]) (by norm_num [roundHalfEven])
    (by norm_num) (by norm_num) (by norm_num) (by norm_num) (by norm_num) (by norm_num)).1

/-- C6: every candidate produced by `random_solution` from in-range draws is
a 4-element sequence that passes the arity check, the `h1` range check and
all three continuous-bounds checks; its value is decided by the physics
part alone (which may still yield the penalty). -/
theorem claim_C6 (H : ℚ) (h1 : ℤ) (b1 b2 : ℚ)
    (hH1 : 3 ≤ H) (hH2 : H ≤ 7) (hh10 : 0 ≤ h1) (hh17 : h1 ≤ 7)
    (hb11 : 2 ≤ b1) (hb12 : b1 ≤ 12) (hb21 : 1/10 ≤ b2) (hb22 : b2 ≤ 2) :
    (∃ l, random_solution H h1 b1 b2 = .seq l ∧ l.length = 4) ∧
      evaluate_solution (random_solution H h1 b1 b2) =
        .ok (physicsEval .init H
          (CantileveredBeamProblem.init.possibleValues.getD h1.toNat 0) b1 b2) := by
  refine ⟨⟨_, rfl, rfl⟩, ?_⟩
  show evaluate_solution (.seq [.num H, .num (h1 : ℚ), .num b1, .num b2]) = _
  rw [evaluate_num, roundHalfEven_intCast]
  split_ifs with c1 c2 c3 c4
  · exfalso; rcases c1 with c | c <;> omega
  · exfalso; rcases c2 with c | c <;> linarith
  · exfalso; rcases c3 with c | c <;> linarith
  · exfalso; rcases c4 with c | c <;> linarith
  · rfl

/-- Witness for C6: the draw `(4, 3, 6, 1)` yields a candidate that reaches
the physics part. -/
theorem claim_C6_witness :
    (∃ l, random_solution 4 3 6 1 = .seq l ∧ l.length = 4) ∧
      evaluate_solution (random_solution 4 3 6 1) =
        .ok (physicsEval .init 4
          (CantileveredBeamProblem.init.possibleValues.getD (Int.toNat 3) 0) 6 1) :=
  claim_C6 4 3 6 1 (by norm_num) (by norm_num) (by norm_num) (by norm_num)
    (by norm_num) (by norm_num) (by norm_num) (by norm_num)

/-- C1, counterexample: the 4-element numeric candidate `[3.0, nan, 2.0, 1.0]`
makes `evaluate_solution` raise an uncaught `ValueError` at
`int(round(solution[1]))` instead of returning a finite value: the `try`
block only guards the moment-of-inertia computation. -/
theorem claim_C1_cex :
    evaluate_solution (.seq [.num 3, .nan, .num 2, .num 1]) = .error .valueError := rfl

/-- C1 (amended): `evaluate_solution` returns a (finite) value and raises
nothing for every non-sequence input, every sequence whose length is not 4,
and every 4-element sequence whose `h1` slot holds a finite number and whose
other slots hold numbers (finite, NaN or infinite); a non-numeric element in
a reached slot, or a NaN/infinite `h1`, can instead raise an uncaught
exception. -/
theorem claim_C1 (sol : PyObj)
    (h : sol = .other ∨ (∃ l, sol = .seq l ∧ l.length ≠ 4) ∨
      (∃ a b c d : PyVal, sol = .seq [a, b, c, d] ∧ (∃ q, b = PyVal.num q) ∧
        a ≠ .other ∧ c ≠ .other ∧ d ≠ .other)) :
    ∃ r : ℚ, evaluate_solution sol = .ok r := by
  rcases h with rfl | ⟨l, rfl, hl⟩ | ⟨a, b, c, d, rfl, ⟨q, rfl⟩, ha, hc, hd⟩
  · exact ⟨PENALTY, rfl⟩
  · exact ⟨PENALTY, by simp [evaluate_solution, evaluateState, hl]⟩
  · simp only [evaluate_solution, evaluateState, List.length_cons, List.length_nil,
      List.getD_cons_zero, List.getD_cons_succ, pyIntRound]
    norm_num
    by_cases hr : roundHalfEven q < CantileveredBeamProblem.init.bounds_h1.1 ∨
        CantileveredBeamProblem.init.bounds_h1.2 < roundHalfEven q
    · rw [if_pos hr]; exact ⟨PENALTY, rfl⟩
    · rw [if_neg hr]
      obtain ⟨bA, hA⟩ := pyChainLe_isOk CantileveredBeamProblem.init.bounds_H.1
        CantileveredBeamProblem.init.bounds_H.2 ha
      rw [hA]
      cases bA
      · exact ⟨PENALTY, rfl⟩
      · obtain ⟨bC, hC⟩ := pyChainLe_isOk CantileveredBeamProblem.init.bounds_b1.1
          CantileveredBeamProblem.init.bounds_b1.2 hc
        rw [hC]
        cases bC
        · exact ⟨PENALTY, rfl⟩
        · obtain ⟨bD, hD⟩ := pyChainLe_isOk CantileveredBeamProblem.init.bounds_b2.1
            CantileveredBeamProblem.init.bounds_b2.2 hd
          rw [hD]
          cases bD
          · exact ⟨PENALTY, rfl⟩
          · exact ⟨_, rfl⟩

/-- Witness for C1: the all-finite candidate `[5, 7, 5, 1]` returns a value. -/
theorem claim_C1_witness :
    ∃ r : ℚ, evaluate_solution (.seq [.num 5, .num 7, .num 5, .num 1]) = .ok r :=
  claim_C1 _ (Or.inr (Or.inr
    ⟨.num 5, .num 7, .num 5, .num 1, rfl, ⟨7, rfl⟩, by simp, by simp, by simp⟩))

/-- C10: whenever `evaluate_solution` returns, the returned value is either
exactly the sentinel `1e9` or a genuine volume, strictly positive and at
most `6768/5 = 1353.6`, so the two cases never collide. -/
theorem claim_C10 (sol : PyObj) (r : ℚ) (h : evaluate_solution sol = .ok r) :
    r = PENALTY ∨ (0 < r ∧ r ≤ 6768/5) := by
  cases sol with
  | other =>
    rw [show evaluate_solution PyObj.other = .ok PENALTY from rfl] at h
    simp only [Except.ok.injEq] at h
    exact Or.inl h.symm
  | seq l =>
    by_cases hl : l.length = 4
    · obtain ⟨a, b, c, d, rfl⟩ := list_eq_four hl
      simp only [evaluate_solution, evaluateState, List.length_cons, List.length_nil,
        List.getD_cons_zero, List.getD_cons_succ] at h
      norm_num at h
      cases b with
      | nan => simp [pyIntRound] at h
      | inf => simp [pyIntRound] at h
      | ninf => simp [pyIntRound] at h
      | other => simp [pyIntRound] at h
      | num q => ?_
      simp only [pyIntRound] at h
      by_cases hr : roundHalfEven q < CantileveredBeamProblem.init.bounds_h1.1 ∨
          CantileveredBeamProblem.init.bounds_h1.2 < roundHalfEven q
      · rw [if_pos hr] at h
        simp only [Except.ok.injEq] at h
        exact Or.inl h.symm
      · rw [if_neg hr] at h
        norm_num [CantileveredBeamProblem.init] at hr
        rcases hA : pyChainLe CantileveredBeamProblem.init.bounds_H.1 a
            CantileveredBeamProblem.init.bounds_H.2 with e | bA
        · rw [hA] at h; exact absurd h (by simp)
        rw [hA] at h
        cases bA
        · simp at h
          exact Or.inl h.symm
        obtain ⟨Hq, rfl, hH1, hH2⟩ := pyChainLe_eq_ok_true hA
        rcases hC : pyChainLe CantileveredBeamProblem.init.bounds_b1.1 c
            CantileveredBeamProblem.init.bounds_b1.2 with e | bC
        · rw [hC] at h; exact absurd h (by simp)
        rw [hC] at h
        cases bC
        · simp at h
          exact Or.inl h.symm
        obtain ⟨b1q, rfl, hb11, hb12⟩ := pyChainLe_eq_ok_true hC
        rcases hD : pyChainLe CantileveredBeamProblem.init.bounds_b2.1 d
            CantileveredBeamProblem.init.bounds_b2.2 with e | bD
        · rw [hD] at h; exact absurd h (by simp)
        rw [hD] at h
        cases bD
        · simp at h
          exact Or.inl h.symm
        obtain ⟨b2q, rfl, hb21, hb22⟩ := pyChainLe_eq_ok_true hD
        simp [pyToQ] at h
        norm_num [CantileveredBeamProblem.init] at hH1 hH2 hb11 hb12 hb21 hb22
        have hfb := possibleValues_mem_bounds (roundHalfEven q).toNat (by omega)
        rw [List.getD_eq_getElem?_getD] at hfb
        rw [physicsEval_init] at h
        split_ifs at h
        · exact Or.inl h.symm
        · exact Or.inl h.symm
        · right
          rw [← h]
          exact beamVolume_bounds hfb.1 hfb.2 (by linarith) (by linarith) (by linarith)
            (by linarith) (by linarith) (by linarith)
    · have hp : evaluate_solution (.seq l) = .ok PENALTY := by
        simp [evaluate_solution, evaluateState, hl]
      rw [hp] at h
      simp only [Except.ok.injEq] at h
      exact Or.inl h.symm

/-- Witness for C10: at the feasible candidate `[5, 7, 5, 1]` the returned
`468` is in the genuine-volume range. -/
theorem claim_C10_witness :
    (468 : ℚ) = PENALTY ∨ ((0:ℚ) < 468 ∧ (468:ℚ) ≤ 6768/5) :=
  claim_C10 (.seq [.num 5, .num 7, .num 5, .num 1]) 468
    (by rw [evaluate_num]
        norm_num [roundHalfEven, physicsEval, momentOfInertia, bendingStress,
          tipDeflection, beamVolume, PENALTY, CantileveredBeamProblem.init,
          List.getD, Int.toNat])
